import Mathlib

/-!
Verification of the bedrock-jwt-mongodb key store: a namespaced JWT
key store over MongoDB with read-triggered HMAC key rotation guarded by a
conditional update, a pluggable per-namespace handler (HMAC and external
web-key variants), and a store facade that encodes the namespace and key
identity into the token's `kid` header.

Embedding conventions:
* JavaScript strings are embedded as `List Char` (`jstr` lifts a Lean
  string literal).
* JavaScript numbers that can be `NaN` or `undefined` are embedded as
  `Option Int`, with `none` standing for `NaN`/`undefined`; `jsAdd` and
  `jsGt` mirror JS arithmetic and comparison on such values (`NaN`
  propagates through `+` and makes every `>` comparison false).
* MongoDB and the jsonwebtoken codec are external collaborators; they are
  modelled from the spec's external-interface contracts (get / insert /
  conditional update with matched count; sign / decode-header / verify).
-/

/-- Embeds a Lean string literal as the character list representing a
JavaScript string. -/
def jstr (s : String) : List Char := s.data

/-- JavaScript `a > b` where `a` may be `NaN`/`undefined` (`none`): any
comparison against `NaN` is false. -/
def jsGt : Option Int → Int → Bool
  | some a, b => decide (a > b)
  | none, _ => false

/-- JavaScript `+` on numbers where either side may be `NaN`/`undefined`
(`none`): adding `undefined` or `NaN` yields `NaN`. -/
def jsAdd : Option Int → Option Int → Option Int
  | some a, some b => some (a + b)
  | _, _ => none

/-- JavaScript `'' + n` conversion of a number to its decimal string. -/
def jsToString (n : Int) : List Char := (toString n).data

/-- JavaScript `s.startsWith(pre)`. -/
def jsStartsWith (pre s : List Char) : Bool := pre.isPrefixOf s

/-- Prepends a character to the first group of a split result; used by
`jsSplitChar` to build up the groups between separators. -/
def consHead (c : Char) : List (List Char) → List (List Char)
  | [] => [[c]]
  | g :: gs => (c :: g) :: gs

/-- JavaScript `s.split(sep)` for a single-character separator: the list of
(possibly empty) chunks between occurrences of `sep`; `''.split(sep)`
is `['']`. -/
def jsSplitChar (sep : Char) : List Char → List (List Char)
  | [] => [[]]
  | c :: rest =>
    if c == sep then [] :: jsSplitChar sep rest
    else consHead c (jsSplitChar sep rest)

/-- JSON-ish payload values appearing in JWT claims. -/
inductive JVal
  | str (s : List Char)
  | num (n : Int)
  deriving DecidableEq

/-- A JS object holding JWT claims, as an association list from property
name to value (property update keeps position, new properties append —
matching JS object/`lodash.assign` semantics). -/
abbrev Payload := List (List Char × JVal)

/-- Reads property `key` of a payload object (`undefined` is `none`). -/
def lookupField : Payload → List Char → Option JVal
  | [], _ => none
  | (k, v) :: rest, key => if k == key then some v else lookupField rest key

/-- Writes property `key` of a payload object, as `_.assign(target, {key: v})`
does: an existing property is overwritten in place, a new property is
appended. -/
def setField : Payload → List Char → JVal → Payload
  | [], key, v => [(key, v)]
  | (k, w) :: rest, key, v =>
    if k == key then (k, v) :: rest else (k, w) :: setField rest key v

/-- Models `bedrock.util.clone`: a deep copy of the payload object. The
copy is a distinct JS object, so subsequent `_.assign` calls that target
the copy leave the original untouched; on our immutable lists the copy has
the same value. -/
def jsClone (p : Payload) : Payload := p

/-- Errors raised by the library: plain `new Error(message)` or
`new BedrockError(message, type, ...)`. -/
inductive ErrV
  | js (message : List Char)
  | bedrock (message typ : List Char)
  deriving DecidableEq

/-- Key material handed to the token codec: `new Buffer(data, 'base64')`
for HMAC secrets (identified by their canonical base64 text, which the
store generates via `randomBytes(16).toString('base64')`), or a private
key PEM for external web keys. -/
inductive KeyMaterial
  | bytes (b64 : List Char)
  | pem (s : List Char)
  deriving DecidableEq

/-- One HMAC signing key as stored in the namespace state:
`{id, data, created, expires}` (namespace-handler-hmac.js createState).
`expires` is `Option Int` because the rotation code can produce `NaN`. -/
structure HmacKey where
  id : List Char
  data : List Char
  created : Int
  expires : Option Int
  deriving DecidableEq

/-- Handler-specific state of an HMAC namespace: the active `key` and the
retained `previousKey` (`null` until the first rotation). -/
structure HmacKeyState where
  previousKey : Option HmacKey
  key : HmacKey
  deriving DecidableEq

/-- Handler-specific `state` field of a namespace record: the HMAC key
state for HS namespaces, or the empty object `{}` that the web-key
handler's createState returns. -/
inductive NsState
  | hmac (st : HmacKeyState)
  | empty
  deriving DecidableEq

/-- A namespace record's `namespace` sub-document as built by
Store.provision: id, algorithm, issuance policy, and handler state. -/
structure Namespace where
  id : List Char
  algorithm : List Char
  clockToleranceInSecs : Int
  tokenTtlInSecs : Int
  state : NsState
  deriving DecidableEq

/-- Reading `state.tokenTtlInSecs` off the HMAC handler state object: the
state created by createState has only `previousKey` and `key` properties,
so this JS property read yields `undefined` (`none`). -/
def HmacKeyState.tokenTtlInSecs (_ : HmacKeyState) : Option Int := none

/-- Reading `state.tokenClockToleranceInSecs` off the HMAC handler state
object: no such property exists on the state, so the read yields
`undefined` (`none`). -/
def HmacKeyState.tokenClockToleranceInSecs (_ : HmacKeyState) : Option Int := none

/-- Key of the jwtKeyStore collection: `database.hash(id)`. The digest
function is injective by design; we model it by tagging the id. -/
structure HashedId where
  ofId : List Char
  deriving DecidableEq

/-- Models `database.hash` from bedrock-mongodb (injective keying of the
namespace id). -/
def databaseHash (id : List Char) : HashedId := ⟨id⟩

/-- A document of the `jwtKeyStore` collection:
`{id: database.hash(nsId), meta: {created, updated}, namespace: {...}}`.
The `namespace` sub-document is the `ns` field (`namespace` is a Lean
keyword). -/
structure DBRecord where
  id : HashedId
  metaCreated : Int
  metaUpdated : Int
  ns : Namespace
  deriving DecidableEq

/-- HMAC handler createState (namespace-handler-hmac.js): a fresh key with
`id = '' + nowInSecs`, the generated base64 key data, `created = now`, and
`expires = now + tokenTtlInSecs + clockToleranceInSecs` from the
provisioning options; `previousKey` starts out `null`. -/
def NamespaceHandlerHmac.createState (tokenTtlInSecs clockToleranceInSecs : Int)
    (nowInSecs : Int) (keyData : List Char) : HmacKeyState :=
  { previousKey := none
  , key := { id := jsToString nowInSecs
           , data := keyData
           , created := nowInSecs
           , expires := some (nowInSecs + tokenTtlInSecs + clockToleranceInSecs) } }

/-- Local rotation step of NamespaceHandlerHmac.getKey (lines 78-85): the
active key is moved into `previousKey` and a fresh key is generated with
`id = '' + nowInSecs` and
`expires = nowInSecs + state.tokenTtlInSecs + state.tokenClockToleranceInSecs`,
where `state` is the handler key state object — which has no such
properties, so both reads are `undefined` and the sum is `NaN` (`none`). -/
def rotateLocal (st : HmacKeyState) (nowInSecs : Int) (freshData : List Char) :
    HmacKeyState :=
  { previousKey := some st.key
  , key := { id := jsToString nowInSecs
           , data := freshData
           , created := nowInSecs
           , expires := jsAdd (jsAdd (some nowInSecs) st.tokenTtlInSecs)
               st.tokenClockToleranceInSecs } }

/-- Identifier the conditional-update query compares against:
`state.previousKey.id` evaluated on the locally rotated state (line 89),
i.e. the id of the key this process is retiring. -/
def retiringKeyId (rotated : HmacKeyState) : List Char :=
  match rotated.previousKey with
  | some k => k.id
  | none => []

/-- Mongo predicate `{'namespace.state.key.id': retiringId}` of the
conditional update, evaluated on the currently stored record: it matches
exactly when the stored record's active `key.id` equals the retiring id
(a query on a missing field matches nothing). -/
def storedKeyIdMatches (stored : DBRecord) (retiringId : List Char) : Bool :=
  match stored.ns.state with
  | NsState.hmac st => st.key.id == retiringId
  | NsState.empty => false

/-- Predicate the spec describes for the conditional update: the stored
record's `previousKey.id` equals the retiring key's id (false when the
stored record has no `previousKey`). -/
def storedPreviousKeyIdMatches (stored : DBRecord) (retiringId : List Char) : Bool :=
  match stored.ns.state with
  | NsState.hmac st =>
    match st.previousKey with
    | some pk => pk.id == retiringId
    | none => false
  | NsState.empty => false

/-- Outcome of one pass of the `rotate` task inside
NamespaceHandlerHmac.getKey. -/
inductive RotateOutcome
  | noRotation (st : HmacKeyState)
  | committed (st : HmacKeyState)
  | retryFreshRead (namespaceId : List Char)
  | typeError
  deriving DecidableEq

/-- One pass of the `rotate` task of NamespaceHandlerHmac.getKey (lines
69-106) against the record stored at update time: if the read key is
unexpired nothing happens; otherwise the state is rotated locally and
persisted with the conditional update `_update(ns.id, state,
{query: {'namespace.state.key.id': state.previousKey.id}})`, which sets
`meta.updated` and `namespace.state` on the matched document and reports
`result.n > 0`; on zero matched rows the handler re-enters getKey with
`options.namespace` reset to the namespace id string (a fresh read).
Returns the outcome together with the stored record after the update. -/
def getKeyRotateStep (ns : Namespace) (stored : DBRecord) (nowInSecs : Int)
    (freshData : List Char) (nowMs : Int) : RotateOutcome × DBRecord :=
  match ns.state with
  | NsState.empty => (RotateOutcome.typeError, stored)
  | NsState.hmac st =>
    if jsGt st.key.expires nowInSecs then (RotateOutcome.noRotation st, stored)
    else
      let rotated := rotateLocal st nowInSecs freshData
      if storedKeyIdMatches stored (retiringKeyId rotated) then
        (RotateOutcome.committed rotated,
         { stored with
           metaUpdated := nowMs
           ns := { stored.ns with state := NsState.hmac rotated } })
      else (RotateOutcome.retryFreshRead ns.id, stored)

/-- Value the `getKey` task returns when the active key is unexpired (the
rotate task is a no-op): `{id: state.key.id,
material: new Buffer(state.key.data, 'base64')}`. -/
structure ResolvedKey where
  id : List Char
  material : KeyMaterial
  deriving DecidableEq

/-- NamespaceHandlerHmac.getKey result on the unexpired path (lines
107-112). -/
def NamespaceHandlerHmac.getKeyFresh (st : HmacKeyState) : ResolvedKey :=
  { id := st.key.id, material := KeyMaterial.bytes st.key.data }

/-- Key-matching step of NamespaceHandlerHmac.verify (lines 130-136):
the active key when `keyId === state.key.id`, else the previous key when
it is present and `keyId === state.previousKey.id`, else no key. An absent
`kid` segment is `none` and matches nothing. -/
def NamespaceHandlerHmac.selectKey (st : HmacKeyState) (keyId : Option (List Char)) :
    Option HmacKey :=
  if keyId == some st.key.id then some st.key
  else
    match st.previousKey with
    | some pk => if keyId == some pk.id then some pk else none
    | none => none

/-- Arguments NamespaceHandlerHmac.verify hands to `jwt.verify` (lines
138-141): the matched key's decoded material, the verification options —
which contain `clockTolerance` but no `algorithms` restriction — and
nothing else. -/
structure CodecVerifyCall where
  material : KeyMaterial
  algorithms : Option (List (List Char))
  clockTolerance : Int
  deriving DecidableEq

/-- NamespaceHandlerHmac.verify up to (but not including) the token codec:
either the error returned before `jwt.verify` is ever invoked, or the
exact argument record passed to `jwt.verify`. Reading `state.key` off the
web-key handler's empty state would throw in JS (`typeError`). -/
def NamespaceHandlerHmac.verifyCall (ns : Namespace) (keyId : Option (List Char)) :
    Except ErrV CodecVerifyCall :=
  match ns.state with
  | NsState.empty => Except.error (ErrV.js (jstr "TypeError"))
  | NsState.hmac st =>
    match NamespaceHandlerHmac.selectKey st keyId with
    | none => Except.error (ErrV.js (jstr "Invalid key identifier in token."))
    | some key =>
      Except.ok { material := KeyMaterial.bytes key.data
                , algorithms := none
                , clockTolerance := ns.clockToleranceInSecs }


/-- Token produced by the codec. Modelled from the spec: the token-codec
contract of the external jsonwebtoken library — `sign(payload, secret,
{algorithm, header}) -> token`, carrying the signed payload, the header
algorithm and `kid`, and the secret the signature binds the token to. -/
structure Token where
  alg : List Char
  kid : List Char
  payload : Payload
  signedWith : KeyMaterial
  deriving DecidableEq

/-- Codec signing. Modelled from the spec: `jwt.sign(payload, secret,
{algorithm, header: {kid}})` packages the payload into a token signed
with `secret`. -/
def jwtSign (payload : Payload) (secret : KeyMaterial) (algorithm kid : List Char) :
    Token :=
  { alg := algorithm, kid := kid, payload := payload, signedWith := secret }

/-- Algorithm acceptance of the codec: when an `algorithms` list is given
the token's header algorithm must be in it; when the option is omitted any
algorithm is accepted. -/
def algOk : Option (List (List Char)) → List Char → Bool
  | none, _ => true
  | some algs, a => algs.contains a

/-- Codec verification. Modelled from the spec: `jwt.verify(token, secret,
{algorithms, clockTolerance}) -> payload | VerificationError` — the
signature must have been produced with `secret`, the header algorithm must
pass the (optional) `algorithms` restriction, and an `exp` claim must not
lie more than `clockTolerance` seconds in the past. -/
def jwtVerify (token : Token) (secret : KeyMaterial)
    (algorithms : Option (List (List Char))) (clockTolerance nowInSecs : Int) :
    Except ErrV Payload :=
  if token.signedWith == secret then
    if algOk algorithms token.alg then
      match lookupField token.payload (jstr "exp") with
      | some (JVal.num e) =>
        if decide (nowInSecs ≥ e + clockTolerance) then
          Except.error (ErrV.js (jstr "jwt expired"))
        else Except.ok token.payload
      | _ => Except.ok token.payload
    else Except.error (ErrV.js (jstr "invalid algorithm"))
  else Except.error (ErrV.js (jstr "invalid signature"))

/-- NamespaceHandlerHmac.verify (lines 126-142): match the key id, then
hand the token to the codec with the matched key's decoded material and
`{clockTolerance: options.namespace.clockToleranceInSecs}` (and no
`algorithms` restriction). -/
def NamespaceHandlerHmac.verify (token : Token) (ns : Namespace)
    (keyId : Option (List Char)) (nowInSecs : Int) : Except ErrV Payload :=
  match NamespaceHandlerHmac.verifyCall ns keyId with
  | Except.error e => Except.error e
  | Except.ok c => jwtVerify token c.material c.algorithms c.clockTolerance nowInSecs

/-- NamespaceHandler.sign (namespace-handler.js lines 77-97) given the
resolved key: clone the caller's payload, `_.assign` the clone with
`exp = now + tokenTtlInSecs` and `iat = now`, and sign it with the
namespace algorithm and a `kid` header of `'<nsId>:<keyId>'` for HS
algorithms and the bare key id otherwise. Returns the token together with
the caller's payload object as it stands after the call (the `_.assign`
targeted the clone, so the caller's object is returned unchanged). -/
def NamespaceHandler.sign (ns : Namespace) (key : ResolvedKey)
    (callerPayload : Payload) (nowInSecs : Int) : Token × Payload :=
  let payload := jsClone callerPayload
  let notAfter := nowInSecs + ns.tokenTtlInSecs
  let payload2 := setField (setField payload (jstr "exp") (JVal.num notAfter))
    (jstr "iat") (JVal.num nowInSecs)
  (jwtSign payload2 key.material ns.algorithm
     (if jsStartsWith (jstr "HS") ns.algorithm then ns.id ++ ':' :: key.id
      else key.id),
   callerPayload)

/-- Result of Store._parse on a `kid` header: `parts[0]` and `parts[1]` of
`kid.split(':')` (`parts[0]` always exists; `parts[1]` may be
`undefined`). -/
structure ParsedKid where
  ns : List Char
  keyId : Option (List Char)
  deriving DecidableEq

/-- Store._parse (lines 175-181). -/
def Store._parse (kid : List Char) : ParsedKid :=
  let parts := jsSplitChar ':' kid
  { ns := parts.headD [], keyId := parts.get? 1 }

/-- The two handlers registered in the Store constructor:
`{HS: new NamespaceHandlerHmac(), RS: handlerWebKey}`. -/
inductive HandlerKind
  | hmac
  | webKey
  deriving DecidableEq

/-- Store._getNamespaceHandler (lines 183-189): looks up
`this.handlers[algorithm.substr(0, 2)]`; `none` models the thrown
`Error('Unsupported algorithm.')`. -/
def handlerFor (algorithm : List Char) : Option HandlerKind :=
  if algorithm.take 2 == jstr "HS" then some HandlerKind.hmac
  else if algorithm.take 2 == jstr "RS" then some HandlerKind.webKey
  else none

/-- Store.getNamespace (lines 27-45): findOne by hashed id; a missing
record is the `NotFound` BedrockError. -/
def getNamespace (db : List DBRecord) (id : List Char) : Except ErrV Namespace :=
  match db.find? (fun r => r.id == databaseHash id) with
  | none => Except.error (ErrV.bedrock (jstr "Key state not found.") (jstr "NotFound"))
  | some r => Except.ok r.ns

/-- Observable effect of one Store.verify call: the two callback
arguments — the error argument and the result value, where the result can
itself be an `Error` object because the unsupported-algorithm branch runs
`callback(null, new Error('Unsupported algorithm.'))` — plus whether the
namespace record was fetched and whether a handler verify was invoked. -/
structure VerifyTrace where
  errArg : Option ErrV
  resultPayload : Option Payload
  resultErrVal : Option ErrV
  namespaceFetched : Bool
  handlerInvoked : Bool
  deriving DecidableEq

/-- Store.verify (lines 139-173): decode the header; if the header
algorithm does not start with `'HS'`, return
`callback(null, new Error('Unsupported algorithm.'))` without touching
storage; otherwise parse the `kid`, fetch the namespace record, dispatch
on the namespace's algorithm family and run the handler's verify (the
web-key handler inherits the abstract base verify, which errors). -/
def Store.verify (db : List DBRecord) (token : Token) (nowInSecs : Int) :
    VerifyTrace :=
  if jsStartsWith (jstr "HS") token.alg then
    match getNamespace db (Store._parse token.kid).ns with
    | Except.error e =>
      { errArg := some e, resultPayload := none, resultErrVal := none
      , namespaceFetched := true, handlerInvoked := false }
    | Except.ok ns =>
      match handlerFor ns.algorithm with
      | none =>
        { errArg := some (ErrV.js (jstr "Unsupported algorithm."))
        , resultPayload := none, resultErrVal := none
        , namespaceFetched := true, handlerInvoked := false }
      | some HandlerKind.hmac =>
        match NamespaceHandlerHmac.verify token ns
            (Store._parse token.kid).keyId nowInSecs with
        | Except.error e =>
          { errArg := some e, resultPayload := none, resultErrVal := none
          , namespaceFetched := true, handlerInvoked := true }
        | Except.ok p =>
          { errArg := none, resultPayload := some p, resultErrVal := none
          , namespaceFetched := true, handlerInvoked := true }
      | some HandlerKind.webKey =>
        { errArg := some (ErrV.js
            (jstr "NamespaceHandler#verify must be overriden by subclass."))
        , resultPayload := none, resultErrVal := none
        , namespaceFetched := true, handlerInvoked := true }
  else
    { errArg := none, resultPayload := none
    , resultErrVal := some (ErrV.js (jstr "Unsupported algorithm."))
    , namespaceFetched := false, handlerInvoked := false }

/-- Options passed to Store.provision (lines 47-60): the namespace id,
algorithm, and issuance policy. -/
structure ProvisionOptions where
  id : List Char
  algorithm : List Char
  clockToleranceInSecs : Int
  tokenTtlInSecs : Int
  deriving DecidableEq

/-- Observable effect of one Store.provision call: the callback error
argument, the collection after the call, and whether the handler's
createState ran and an insert was attempted. -/
structure ProvisionTrace where
  errArg : Option ErrV
  db : List DBRecord
  createStateCalled : Bool
  insertAttempted : Bool
  deriving DecidableEq

/-- Insert into the `jwtKeyStore` collection, which has a unique index on
`id`. Modelled from the spec: insert-if-absent; the Bool reports the
duplicate-key error, in which case the collection is untouched. -/
def dbInsert (db : List DBRecord) (record : DBRecord) : List DBRecord × Bool :=
  if db.any (fun r => r.id == record.id) then (db, true)
  else (db ++ [record], false)

/-- Store.provision (lines 61-110): resolve the handler from the
algorithm's two-character family prefix — failing with the
`BedrockError('Unsupported algorithm.', 'NotFound', ...)` before any
storage access — then run the handler's createState (its outcome is the
`createStateResult` argument, since it involves randomness or the external
key registry), build the record and insert it; a duplicate-key collision
is swallowed (`callback()` with no error) leaving the stored record
untouched. -/
def Store.provision (db : List DBRecord) (opts : ProvisionOptions)
    (createStateResult : Except ErrV NsState) (nowMs : Int) : ProvisionTrace :=
  match handlerFor opts.algorithm with
  | none =>
    { errArg := some (ErrV.bedrock (jstr "Unsupported algorithm.") (jstr "NotFound"))
    , db := db, createStateCalled := false, insertAttempted := false }
  | some _ =>
    match createStateResult with
    | Except.error e =>
      { errArg := some e, db := db, createStateCalled := true
      , insertAttempted := false }
    | Except.ok st =>
      let record : DBRecord :=
        { id := databaseHash opts.id
        , metaCreated := nowMs
        , metaUpdated := nowMs
        , ns := { id := opts.id
                , algorithm := opts.algorithm
                , clockToleranceInSecs := opts.clockToleranceInSecs
                , tokenTtlInSecs := opts.tokenTtlInSecs
                , state := st } }
      match dbInsert db record with
      | (db2, false) =>
        { errArg := none, db := db2, createStateCalled := true
        , insertAttempted := true }
      | (_, true) =>
        { errArg := none, db := db, createStateCalled := true
        , insertAttempted := true }

/-- Resolution result of the external key registry for one key reference.
Modelled from the spec: `brKey.getPublicKey` yields a public key carrying
`sysStatus` together with the private key's PEM, or a lookup error. -/
structure WebKeyRecord where
  sysStatus : List Char
  privateKeyPem : List Char
  deriving DecidableEq

/-- The external key registry at the moment of one resolution call. -/
abbrev WebKeyRegistry := List Char → Except ErrV WebKeyRecord

/-- NamespaceHandlerWebKey.getKey (lines 43-58): resolve the reference
through the registry on this very call; a lookup error is the
`InvalidKey` BedrockError 'Invalid signing key specified.', a
`sysStatus` other than `'active'` is the `InvalidKey` BedrockError
'The specified signing key has been revoked.', and otherwise the result is
`{id: keyRef, material: privateKey.privateKeyPem}`. -/
def NamespaceHandlerWebKey.getKey (registry : WebKeyRegistry) (keyRef : List Char) :
    Except ErrV ResolvedKey :=
  match registry keyRef with
  | Except.error _ =>
    Except.error (ErrV.bedrock (jstr "Invalid signing key specified.")
      (jstr "InvalidKey"))
  | Except.ok pk =>
    if pk.sysStatus == jstr "active" then
      Except.ok { id := keyRef, material := KeyMaterial.pem pk.privateKeyPem }
    else
      Except.error (ErrV.bedrock (jstr "The specified signing key has been revoked.")
        (jstr "InvalidKey"))

/-- NamespaceHandlerWebKey.createState (lines 25-28): validate the key by
running getKey; on success the created state is the empty object `{}`. -/
def NamespaceHandlerWebKey.createState (registry : WebKeyRegistry)
    (keyRef : List Char) : Except ErrV NsState :=
  match NamespaceHandlerWebKey.getKey registry keyRef with
  | Except.error e => Except.error e
  | Except.ok _ => Except.ok NsState.empty

/-- Tests whether a handler result is a failure carrying the `InvalidKey`
BedrockError type. -/
def isInvalidKeyFailure {α : Type} : Except ErrV α → Bool
  | Except.error (ErrV.bedrock _ t) => t == jstr "InvalidKey"
  | Except.error (ErrV.js _) => false
  | Except.ok _ => false

/-- The condition under which the spec says external key resolution must
fail: the registry lookup errors, or the resolved key's status is not
`'active'`. -/
def webKeyResolutionFails (registry : WebKeyRegistry) (keyRef : List Char) : Bool :=
  match registry keyRef with
  | Except.error _ => true
  | Except.ok pk => !(pk.sysStatus == jstr "active")

theorem lookupField_setField_same (p : Payload) (k : List Char) (v : JVal) :
    lookupField (setField p k v) k = some v := by
  induction p with
  | nil => simp [setField, lookupField]
  | cons hd tl ih =>
    obtain ⟨k1, w⟩ := hd
    by_cases h : (k1 == k) = true
    · simp [setField, h, lookupField]
    · simp [setField, h, lookupField, ih]

theorem lookupField_setField_ne (p : Payload) (k key : List Char) (v : JVal)
    (h : k ≠ key) : lookupField (setField p k v) key = lookupField p key := by
  induction p with
  | nil =>
    have hk : (k == key) = false := by simpa using h
    simp [setField, lookupField, hk]
  | cons hd tl ih =>
    obtain ⟨k1, w⟩ := hd
    by_cases h1 : (k1 == k) = true
    · have hk1 : k1 = k := by simpa using h1
      have hk : (k1 == key) = false := by simp [hk1]; exact h
      simp [setField, h1, lookupField, hk]
    · simp [setField, h1, lookupField, ih]

theorem jsSplitChar_of_not_mem (sep : Char) (b : List Char) (h : sep ∉ b) :
    jsSplitChar sep b = [b] := by
  induction b with
  | nil => rfl
  | cons c rest ih =>
    have hc : (c == sep) = false := by
      simp only [beq_eq_false_iff_ne]
      intro e
      exact h (e ▸ List.mem_cons_self c rest)
    have hr : sep ∉ rest := fun m => h (List.mem_cons_of_mem c m)
    simp [jsSplitChar, hc, ih hr, consHead]

theorem jsSplitChar_append (sep : Char) (a b : List Char) (h : sep ∉ a) :
    jsSplitChar sep (a ++ sep :: b) = a :: jsSplitChar sep b := by
  induction a with
  | nil => simp [jsSplitChar]
  | cons c rest ih =>
    have hc : (c == sep) = false := by
      simp only [beq_eq_false_iff_ne]
      intro e
      exact h (e ▸ List.mem_cons_self c rest)
    have hr : sep ∉ rest := fun m => h (List.mem_cons_of_mem c m)
    simp [jsSplitChar, hc, ih hr, consHead]

theorem Store._parse_append (nsId k : List Char) (h1 : ':' ∉ nsId) (h2 : ':' ∉ k) :
    Store._parse (nsId ++ ':' :: k) = { ns := nsId, keyId := some k } := by
  unfold Store._parse
  rw [jsSplitChar_append ':' nsId k h1, jsSplitChar_of_not_mem ':' k h2]
  rfl

theorem handlerFor_of_startsWith_HS (alg : List Char)
    (h : jsStartsWith (jstr "HS") alg = true) :
    handlerFor alg = some HandlerKind.hmac := by
  have hHS : jstr "HS" = ['H', 'S'] := rfl
  rw [hHS] at h
  match alg with
  | [] => simp [jsStartsWith, List.isPrefixOf] at h
  | [c] => simp [jsStartsWith, List.isPrefixOf] at h
  | c1 :: c2 :: rest =>
    simp only [jsStartsWith, List.isPrefixOf, Bool.and_eq_true, beq_iff_eq] at h
    obtain ⟨e1, e2, -⟩ := h
    subst e1
    subst e2
    rfl

/-- Hmac key state read by the rotating process in the C1 scenario: active
key id '100' (expired), no previous key yet. -/
def c1st : HmacKeyState :=
  { previousKey := none
  , key := { id := jstr "100", data := jstr "k0data", created := 100
           , expires := some 150 } }

/-- Namespace record holding `c1st`. -/
def c1ns : Namespace :=
  { id := jstr "ns1", algorithm := jstr "HS256", clockToleranceInSecs := 30
  , tokenTtlInSecs := 300, state := NsState.hmac c1st }

/-- Stored document at update time in the C1 scenario (identical to the
record the process read). -/
def c1stored : DBRecord :=
  { id := databaseHash (jstr "ns1"), metaCreated := 0, metaUpdated := 0
  , ns := c1ns }

/-- C1: counterexample. In the ordinary first rotation the stored record
has no `previousKey` at all, so the stored record's `previousKey.id` does
not equal the id '100' of the key being retired — yet the conditional
update succeeds (the step commits the rotated state). The update's
predicate is on the stored record's active `key.id`, not on its
`previousKey.id` as the claim states. -/
theorem c1_rotation_cas_counterexample :
    (getKeyRotateStep c1ns c1stored 200 (jstr "freshdata") 200000).1 =
      RotateOutcome.committed (rotateLocal c1st 200 (jstr "freshdata")) ∧
    retiringKeyId (rotateLocal c1st 200 (jstr "freshdata")) = jstr "100" ∧
    storedPreviousKeyIdMatches c1stored (jstr "100") = false := by
  decide

/-- C1 (amended): during Hmac rotation in getKey, the persisted
conditional update succeeds exactly when the stored record's active
`key.id` still equals the id of the key the rotating process is retiring;
when that predicate does not hold on the stored record, the update
reports zero rows affected, the stored record is left unchanged, and the
process retries getKey from a fresh read of the namespace id. -/
theorem c1_rotation_cas_amended (ns : Namespace) (st : HmacKeyState)
    (stored : DBRecord) (nowInSecs : Int) (freshData : List Char) (nowMs : Int)
    (hst : ns.state = NsState.hmac st)
    (hexp : jsGt st.key.expires nowInSecs = false) :
    ((getKeyRotateStep ns stored nowInSecs freshData nowMs).1 =
        RotateOutcome.committed (rotateLocal st nowInSecs freshData) ↔
      storedKeyIdMatches stored st.key.id = true) ∧
    (storedKeyIdMatches stored st.key.id = false →
      getKeyRotateStep ns stored nowInSecs freshData nowMs =
        (RotateOutcome.retryFreshRead ns.id, stored)) := by
  have hret : retiringKeyId (rotateLocal st nowInSecs freshData) = st.key.id := rfl
  unfold getKeyRotateStep
  rw [hst]
  simp only [hexp, Bool.false_eq_true, if_false, hret]
  by_cases h : storedKeyIdMatches stored st.key.id = true
  · simp [h]
  · simp only [Bool.not_eq_true] at h
    simp [h]

/-- Hmac key state of a stored document already rotated past the reader in
the C1 scenario: the active key id is '300', not the retiring id '100'. -/
def c1staleState : HmacKeyState :=
  { previousKey := some c1st.key
  , key := { id := jstr "300", data := jstr "k1data", created := 300
           , expires := some 630 } }

/-- Stored document holding `c1staleState`. -/
def c1staleStored : DBRecord :=
  { id := databaseHash (jstr "ns1"), metaCreated := 0, metaUpdated := 250000
  , ns := { c1ns with state := NsState.hmac c1staleState } }

/-- C1 witness: at a stale read (another process already advanced the
stored record to key id '300') the conditional update matches nothing,
the stored record is returned unchanged, and the outcome is a retry from
a fresh read. -/
theorem c1_rotation_cas_witness :
    getKeyRotateStep c1ns c1staleStored 200 (jstr "freshdata") 200000 =
      (RotateOutcome.retryFreshRead (jstr "ns1"), c1staleStored) :=
  (c1_rotation_cas_amended c1ns c1st c1staleStored 200 (jstr "freshdata") 200000
    rfl (by decide)).2 (by decide)

/-- Hmac key state in the C2 scenario: key created at epoch 100 with
`expires = 100 + 300 + 30 = 430` (ttl 300, clock tolerance 30). -/
def c2st : HmacKeyState :=
  { previousKey := none
  , key := { id := jstr "100", data := jstr "k0data", created := 100
           , expires := some 430 } }

/-- Namespace record holding `c2st` with the policy
`tokenTtlInSecs = 300`, `clockToleranceInSecs = 30`. -/
def c2ns : Namespace :=
  { id := jstr "wallet-1", algorithm := jstr "HS256", clockToleranceInSecs := 30
  , tokenTtlInSecs := 300, state := NsState.hmac c2st }

/-- Stored document holding `c2ns`. -/
def c2stored : DBRecord :=
  { id := databaseHash (jstr "wallet-1"), metaCreated := 0, metaUpdated := 0
  , ns := c2ns }

/-- C2: evaluation of the code at the failing input. At `now = 500` the
key (expires 430) is expired and getKey rotates: the old key does become
`previousKey` and the fresh key's id is the epoch string '500' — but the
fresh key's `expires` is `NaN` (`none`), not
`now + tokenTtlInSecs + clockToleranceInSecs = 830` of the namespace's
policy, because the rotation reads `state.tokenTtlInSecs` and
`state.tokenClockToleranceInSecs` off the handler key state object, which
has no such properties. The last conjunct records the consequence: the
rotated key already counts as expired at the very next second, so every
subsequent getKey rotates again. -/
theorem c2_rotation_expiry_bug :
    (getKeyRotateStep c2ns c2stored 500 (jstr "freshdata") 500000).1 =
      RotateOutcome.committed
        { previousKey := some c2st.key
        , key := { id := jstr "500", data := jstr "freshdata", created := 500
                 , expires := none } } ∧
    (none : Option Int) ≠
      some (500 + c2ns.tokenTtlInSecs + c2ns.clockToleranceInSecs) ∧
    jsGt (none : Option Int) 501 = false := by
  decide

theorem selectKey_current (st : HmacKeyState) (keyId : Option (List Char))
    (h : keyId = some st.key.id) :
    NamespaceHandlerHmac.selectKey st keyId = some st.key := by
  simp [NamespaceHandlerHmac.selectKey, h]

theorem selectKey_prev (st : HmacKeyState) (keyId : Option (List Char))
    (pk : HmacKey) (h1 : keyId ≠ some st.key.id) (h2 : st.previousKey = some pk)
    (h3 : keyId = some pk.id) :
    NamespaceHandlerHmac.selectKey st keyId = some pk := by
  subst h3
  have hb : ((some pk.id : Option (List Char)) == some st.key.id) = false :=
    beq_eq_false_iff_ne.mpr h1
  simp [NamespaceHandlerHmac.selectKey, hb, h2]

theorem selectKey_notFound (st : HmacKeyState) (keyId : Option (List Char))
    (h1 : keyId ≠ some st.key.id)
    (h2 : ∀ pk, st.previousKey = some pk → keyId ≠ some pk.id) :
    NamespaceHandlerHmac.selectKey st keyId = none := by
  have hb : (keyId == some st.key.id) = false := beq_eq_false_iff_ne.mpr h1
  cases hpk : st.previousKey with
  | none => simp [NamespaceHandlerHmac.selectKey, hb, hpk]
  | some pk =>
    have hb2 : (keyId == some pk.id) = false :=
      beq_eq_false_iff_ne.mpr (h2 pk hpk)
    simp [NamespaceHandlerHmac.selectKey, hb, hpk, hb2]

theorem verifyCall_of_selectKey (ns : Namespace) (st : HmacKeyState)
    (keyId : Option (List Char)) (key : HmacKey)
    (hst : ns.state = NsState.hmac st)
    (hsel : NamespaceHandlerHmac.selectKey st keyId = some key) :
    NamespaceHandlerHmac.verifyCall ns keyId =
      Except.ok { material := KeyMaterial.bytes key.data, algorithms := none
                , clockTolerance := ns.clockToleranceInSecs } := by
  simp [NamespaceHandlerHmac.verifyCall, hst, hsel]

theorem verifyCall_notFound (ns : Namespace) (st : HmacKeyState)
    (keyId : Option (List Char)) (hst : ns.state = NsState.hmac st)
    (hsel : NamespaceHandlerHmac.selectKey st keyId = none) :
    NamespaceHandlerHmac.verifyCall ns keyId =
      Except.error (ErrV.js (jstr "Invalid key identifier in token.")) := by
  simp [NamespaceHandlerHmac.verifyCall, hst, hsel]

theorem jwtVerify_ok (token : Token) (secret : KeyMaterial)
    (clockTolerance nowInSecs e : Int)
    (hs : token.signedWith = secret)
    (he : lookupField token.payload (jstr "exp") = some (JVal.num e))
    (hn : nowInSecs < e + clockTolerance) :
    jwtVerify token secret none clockTolerance nowInSecs =
      Except.ok token.payload := by
  have hlt : ¬ (nowInSecs ≥ e + clockTolerance) := by omega
  simp [jwtVerify, hs, he, algOk, hlt]

/-- C3: for every Hmac namespace state and keyId, verify selects the
current key when keyId equals `key.id`, else the previous key when it is
present and keyId equals `previousKey.id`, and otherwise fails with the
InvalidKeyIdentifier error ('Invalid key identifier in token.') before any
codec-call record is built — so the token codec is never invoked in the
failure case. Consequently a token signed with key K still verifies right
after a rotation moves K into `previousKey` (fresh key ids differ from
K's), and once a second rotation evicts K entirely its key id fails with
the same InvalidKeyIdentifier error. -/
theorem c3_verification_window (ns : Namespace) (st : HmacKeyState)
    (keyId : Option (List Char)) (hst : ns.state = NsState.hmac st) :
    (keyId = some st.key.id →
      NamespaceHandlerHmac.verifyCall ns keyId =
        Except.ok { material := KeyMaterial.bytes st.key.data, algorithms := none
                  , clockTolerance := ns.clockToleranceInSecs }) ∧
    (keyId ≠ some st.key.id → ∀ pk, st.previousKey = some pk →
      keyId = some pk.id →
      NamespaceHandlerHmac.verifyCall ns keyId =
        Except.ok { material := KeyMaterial.bytes pk.data, algorithms := none
                  , clockTolerance := ns.clockToleranceInSecs }) ∧
    (keyId ≠ some st.key.id →
      (∀ pk, st.previousKey = some pk → keyId ≠ some pk.id) →
      NamespaceHandlerHmac.verifyCall ns keyId =
        Except.error (ErrV.js (jstr "Invalid key identifier in token."))) ∧
    (∀ nowR d tok nowV e, st.key.id ≠ jsToString nowR →
      tok.signedWith = KeyMaterial.bytes st.key.data →
      lookupField tok.payload (jstr "exp") = some (JVal.num e) →
      nowV < e + ns.clockToleranceInSecs →
      NamespaceHandlerHmac.verify tok
        { ns with state := NsState.hmac (rotateLocal st nowR d) }
        (some st.key.id) nowV = Except.ok tok.payload) ∧
    (∀ nowR d nowR2 d2, st.key.id ≠ jsToString nowR →
      st.key.id ≠ jsToString nowR2 →
      NamespaceHandlerHmac.verifyCall
        { ns with state :=
            NsState.hmac (rotateLocal (rotateLocal st nowR d) nowR2 d2) }
        (some st.key.id) =
        Except.error (ErrV.js (jstr "Invalid key identifier in token."))) := by
  refine ⟨?_, ?_, ?_, ?_, ?_⟩
  · intro h
    exact verifyCall_of_selectKey ns st keyId st.key hst
      (selectKey_current st keyId h)
  · intro h1 pk h2 h3
    exact verifyCall_of_selectKey ns st keyId pk hst
      (selectKey_prev st keyId pk h1 h2 h3)
  · intro h1 h2
    exact verifyCall_notFound ns st keyId hst (selectKey_notFound st keyId h1 h2)
  · intro nowR d tok nowV e hne hsig hexp hlt
    have h1 : some st.key.id ≠ some ((rotateLocal st nowR d).key.id) := by
      intro h
      exact hne (by simpa [rotateLocal] using h)
    have hsel := selectKey_prev (rotateLocal st nowR d) (some st.key.id)
      st.key h1 rfl rfl
    have hvc := verifyCall_of_selectKey
      { ns with state := NsState.hmac (rotateLocal st nowR d) }
      (rotateLocal st nowR d) (some st.key.id) st.key rfl hsel
    simp only [NamespaceHandlerHmac.verify, hvc]
    exact jwtVerify_ok tok (KeyMaterial.bytes st.key.data)
      ns.clockToleranceInSecs nowV e hsig hexp hlt
  · intro nowR d nowR2 d2 hne hne2
    have h1 : some st.key.id ≠
        some ((rotateLocal (rotateLocal st nowR d) nowR2 d2).key.id) := by
      intro h
      exact hne2 (by simpa [rotateLocal] using h)
    have h2 : ∀ pk,
        (rotateLocal (rotateLocal st nowR d) nowR2 d2).previousKey = some pk →
        some st.key.id ≠ some pk.id := by
      intro pk hpk h
      have hpk2 : pk = (rotateLocal st nowR d).key := by
        simpa [rotateLocal] using hpk.symm
      rw [hpk2] at h
      exact hne (by simpa [rotateLocal] using h)
    exact verifyCall_notFound
      { ns with state := NsState.hmac (rotateLocal (rotateLocal st nowR d) nowR2 d2) }
      (rotateLocal (rotateLocal st nowR d) nowR2 d2) (some st.key.id) rfl
      (selectKey_notFound (rotateLocal (rotateLocal st nowR d) nowR2 d2)
        (some st.key.id) h1 h2)

/-- Hmac key state for the C3 witness: active key id '100'. -/
def c3st : HmacKeyState :=
  { previousKey := none
  , key := { id := jstr "100", data := jstr "k0data", created := 100
           , expires := some 430 } }

/-- Namespace record holding `c3st`. -/
def c3ns : Namespace :=
  { id := jstr "ns3", algorithm := jstr "HS256", clockToleranceInSecs := 30
  , tokenTtlInSecs := 300, state := NsState.hmac c3st }

/-- C3 witness: at the concrete state, the matching key id yields the
codec call with the active key's material, and after two rotations (at
epochs 200 and 300) the evicted key id '100' fails with the
InvalidKeyIdentifier error. -/
theorem c3_verification_window_witness :
    NamespaceHandlerHmac.verifyCall c3ns (some (jstr "100")) =
      Except.ok { material := KeyMaterial.bytes (jstr "k0data")
                , algorithms := none, clockTolerance := 30 } ∧
    NamespaceHandlerHmac.verifyCall
      { c3ns with state :=
          NsState.hmac (rotateLocal (rotateLocal c3st 200 (jstr "d1")) 300 (jstr "d2")) }
      (some (jstr "100")) =
      Except.error (ErrV.js (jstr "Invalid key identifier in token.")) :=
  ⟨(c3_verification_window c3ns c3st (some (jstr "100")) rfl).1 rfl,
   (c3_verification_window c3ns c3st (some (jstr "100")) rfl).2.2.2.2
     200 (jstr "d1") 300 (jstr "d2") (by decide) (by decide)⟩

/-- Token produced for an HS namespace whose active key is unexpired: the
Hmac handler's getKey resolves the fresh key and the base handler sign
uses it (Store.sign composes getNamespace, handler dispatch, and
handler.sign). -/
def signedTokenHS (ns : Namespace) (st : HmacKeyState) (p : Payload)
    (nowInSecs : Int) : Token :=
  (NamespaceHandler.sign ns (NamespaceHandlerHmac.getKeyFresh st) p nowInSecs).1

/-- Hmac key state for the C4 counterexample: active key id '1'. -/
def c4st : HmacKeyState :=
  { previousKey := none
  , key := { id := jstr "1", data := jstr "kd", created := 1
           , expires := some 331 } }

/-- Symmetric namespace whose id 'a:b' contains the kid separator. -/
def c4badNs : Namespace :=
  { id := jstr "a:b", algorithm := jstr "HS256", clockToleranceInSecs := 30
  , tokenTtlInSecs := 300, state := NsState.hmac c4st }

/-- C4: counterexample. For the symmetric namespace with id 'a:b' and
active key id '1', sign produces the kid 'a:b:1', but the facade's parse
recovers ('a', 'b') — `parts[0]` and `parts[1]` of the split — and not
('a:b', '1'): the claimed round trip fails for a namespace id containing
the separator (and `parts[1]` is not 'the remainder after the first
separator' either). -/
theorem c4_kid_roundtrip_counterexample :
    (signedTokenHS c4badNs c4st [] 1).kid = jstr "a:b:1" ∧
    Store._parse (jstr "a:b:1") = { ns := jstr "a", keyId := some (jstr "b") } ∧
    ({ ns := jstr "a", keyId := some (jstr "b") } : ParsedKid) ≠
      { ns := jstr "a:b", keyId := some (jstr "1") } := by
  decide

/-- C4 (amended): for every symmetric (HS-family) namespace whose id and
active key id do not contain the ':' separator, sign produces a token
whose kid header is '<nsId>:<keyId>'; the facade's kid parse recovers the
(namespace, keyId) pair; and Store.verify on that token — against a store
returning the same namespace record, before the token's expiry window has
passed — returns the signed payload, which is the original payload plus
added `exp = iat + tokenTtlInSecs` and `iat` = signing time, every other
property unchanged. -/
theorem c4_kid_roundtrip_amended (db : List DBRecord) (ns : Namespace)
    (st : HmacKeyState) (p : Payload) (nowInSecs : Int)
    (hst : ns.state = NsState.hmac st)
    (halg : jsStartsWith (jstr "HS") ns.algorithm = true)
    (hns : ':' ∉ ns.id) (hkey : ':' ∉ st.key.id)
    (hdb : getNamespace db ns.id = Except.ok ns)
    (hfresh : 0 < ns.tokenTtlInSecs + ns.clockToleranceInSecs) :
    (signedTokenHS ns st p nowInSecs).kid = ns.id ++ ':' :: st.key.id ∧
    Store._parse (signedTokenHS ns st p nowInSecs).kid =
      { ns := ns.id, keyId := some st.key.id } ∧
    Store.verify db (signedTokenHS ns st p nowInSecs) nowInSecs =
      { errArg := none
      , resultPayload := some (signedTokenHS ns st p nowInSecs).payload
      , resultErrVal := none, namespaceFetched := true
      , handlerInvoked := true } ∧
    lookupField (signedTokenHS ns st p nowInSecs).payload (jstr "exp") =
      some (JVal.num (nowInSecs + ns.tokenTtlInSecs)) ∧
    lookupField (signedTokenHS ns st p nowInSecs).payload (jstr "iat") =
      some (JVal.num nowInSecs) ∧
    (∀ k, k ≠ jstr "exp" → k ≠ jstr "iat" →
      lookupField (signedTokenHS ns st p nowInSecs).payload k =
        lookupField p k) := by
  have hkid : (signedTokenHS ns st p nowInSecs).kid =
      ns.id ++ ':' :: st.key.id := by
    simp [signedTokenHS, NamespaceHandler.sign, jwtSign,
      NamespaceHandlerHmac.getKeyFresh, halg]
  have hpay : (signedTokenHS ns st p nowInSecs).payload =
      setField (setField p (jstr "exp")
          (JVal.num (nowInSecs + ns.tokenTtlInSecs)))
        (jstr "iat") (JVal.num nowInSecs) := rfl
  have hparse : Store._parse (signedTokenHS ns st p nowInSecs).kid =
      { ns := ns.id, keyId := some st.key.id } := by
    rw [hkid]
    exact Store._parse_append ns.id st.key.id hns hkey
  have hexp : lookupField (signedTokenHS ns st p nowInSecs).payload
      (jstr "exp") = some (JVal.num (nowInSecs + ns.tokenTtlInSecs)) := by
    rw [hpay, lookupField_setField_ne _ _ _ _ (by decide),
      lookupField_setField_same]
  have hiat : lookupField (signedTokenHS ns st p nowInSecs).payload
      (jstr "iat") = some (JVal.num nowInSecs) := by
    rw [hpay, lookupField_setField_same]
  have hother : ∀ k, k ≠ jstr "exp" → k ≠ jstr "iat" →
      lookupField (signedTokenHS ns st p nowInSecs).payload k =
        lookupField p k := by
    intro k h1 h2
    rw [hpay, lookupField_setField_ne _ _ _ _ (Ne.symm h2),
      lookupField_setField_ne _ _ _ _ (Ne.symm h1)]
  refine ⟨hkid, hparse, ?_, hexp, hiat, hother⟩
  have hsig : (signedTokenHS ns st p nowInSecs).signedWith =
      KeyMaterial.bytes st.key.data := rfl
  have hvc := verifyCall_of_selectKey ns st (some st.key.id) st.key hst
    (selectKey_current st (some st.key.id) rfl)
  have hn : nowInSecs <
      (nowInSecs + ns.tokenTtlInSecs) + ns.clockToleranceInSecs := by omega
  have hv : NamespaceHandlerHmac.verify (signedTokenHS ns st p nowInSecs) ns
      (some st.key.id) nowInSecs =
      Except.ok (signedTokenHS ns st p nowInSecs).payload := by
    simp only [NamespaceHandlerHmac.verify, hvc]
    exact jwtVerify_ok _ _ _ _ _ hsig hexp hn
  have halg2 : jsStartsWith (jstr "HS") (signedTokenHS ns st p nowInSecs).alg
      = true := halg
  simp only [Store.verify, halg2, if_true, hparse, hdb,
    handlerFor_of_startsWith_HS ns.algorithm halg, hv]

/-- Hmac key state for the C4 witness: active key id '7'. -/
def c4st2 : HmacKeyState :=
  { previousKey := none
  , key := { id := jstr "7", data := jstr "kdat", created := 7
           , expires := some 337 } }

/-- Namespace record for the C4 witness. -/
def c4ns2 : Namespace :=
  { id := jstr "ns4", algorithm := jstr "HS256", clockToleranceInSecs := 30
  , tokenTtlInSecs := 300, state := NsState.hmac c4st2 }

/-- Store contents for the C4 witness. -/
def c4db : List DBRecord :=
  [{ id := databaseHash (jstr "ns4"), metaCreated := 0, metaUpdated := 0
   , ns := c4ns2 }]

/-- Payload signed in the C4 witness. -/
def c4payload : Payload := [(jstr "sub", JVal.str (jstr "alice"))]

/-- C4 witness: the concrete round trip for namespace 'ns4' with key id
'7' — the kid is 'ns4:7' and verification of the signed token succeeds
with the signed payload. -/
theorem c4_kid_roundtrip_witness :
    (signedTokenHS c4ns2 c4st2 c4payload 7).kid =
      jstr "ns4" ++ ':' :: jstr "7" ∧
    Store.verify c4db (signedTokenHS c4ns2 c4st2 c4payload 7) 7 =
      { errArg := none
      , resultPayload := some (signedTokenHS c4ns2 c4st2 c4payload 7).payload
      , resultErrVal := none, namespaceFetched := true
      , handlerInvoked := true } :=
  have h := c4_kid_roundtrip_amended c4db c4ns2 c4st2 c4payload 7 rfl
    (by decide) (by decide) (by decide) rfl (by decide)
  ⟨h.1, h.2.2.1⟩

/-- Token with an RS-family header in the C5 counterexample. -/
def c5rsToken : Token :=
  { alg := jstr "RS256", kid := jstr "did:key:ext1"
  , payload := [(jstr "sub", JVal.str (jstr "alice"))]
  , signedWith := KeyMaterial.pem (jstr "PEM1") }

/-- C5: counterexample. RS is a supported family — the store's handler
table maps the 'RS' prefix to the web-key handler — yet Store.verify on
an RS256 token does not proceed: it short-circuits with no namespace
fetch and no handler call, and moreover the caller does not receive an
error (the error argument is null); the 'Unsupported algorithm.' Error
object is passed as the callback's result value. -/
theorem c5_alg_gate_counterexample :
    handlerFor (jstr "RS256") = some HandlerKind.webKey ∧
    Store.verify [] c5rsToken 0 =
      { errArg := none, resultPayload := none
      , resultErrVal := some (ErrV.js (jstr "Unsupported algorithm."))
      , namespaceFetched := false, handlerInvoked := false } := by
  decide

/-- C5 (amended): Store.verify short-circuits for every token whose
decoded header algorithm does not start with 'HS' — including RS-family
tokens, despite an RS handler being registered — performing no namespace
record fetch and no handler call, and delivering the
'Unsupported algorithm.' Error as the callback's result value with a null
error argument; only HS-family tokens proceed to the namespace fetch (and
then never use the result-value channel for errors). -/
theorem c5_alg_gate_amended (db : List DBRecord) (token : Token)
    (nowInSecs : Int) :
    (jsStartsWith (jstr "HS") token.alg = false →
      Store.verify db token nowInSecs =
        { errArg := none, resultPayload := none
        , resultErrVal := some (ErrV.js (jstr "Unsupported algorithm."))
        , namespaceFetched := false, handlerInvoked := false }) ∧
    (jsStartsWith (jstr "HS") token.alg = true →
      (Store.verify db token nowInSecs).namespaceFetched = true ∧
      (Store.verify db token nowInSecs).resultErrVal = none) := by
  constructor
  · intro h
    simp [Store.verify, h]
  · intro h
    simp only [Store.verify, h, if_true]
    cases hg : getNamespace db (Store._parse token.kid).ns with
    | error e => simp
    | ok ns =>
      cases hh : handlerFor ns.algorithm with
      | none => simp [hh]
      | some k =>
        cases k with
        | webKey => simp [hh]
        | hmac =>
          cases hv : NamespaceHandlerHmac.verify token ns
              (Store._parse token.kid).keyId nowInSecs with
          | error e => simp [hh, hv]
          | ok p => simp [hh, hv]

/-- Token with an HS-family header in the C5 witness. -/
def c5hsToken : Token :=
  { alg := jstr "HS256", kid := jstr "ns5:1"
  , payload := [(jstr "sub", JVal.str (jstr "alice"))]
  , signedWith := KeyMaterial.bytes (jstr "kd") }

/-- C5 witness: at the concrete RS256 token the call short-circuits with
the Error in the result value and no fetch; at the concrete HS256 token
verification proceeds to the namespace fetch. -/
theorem c5_alg_gate_witness :
    Store.verify [] c5rsToken 3 =
      { errArg := none, resultPayload := none
      , resultErrVal := some (ErrV.js (jstr "Unsupported algorithm."))
      , namespaceFetched := false, handlerInvoked := false } ∧
    (Store.verify [] c5hsToken 3).namespaceFetched = true :=
  ⟨(c5_alg_gate_amended [] c5rsToken 3).1 (by decide),
   ((c5_alg_gate_amended [] c5hsToken 3).2 (by decide)).1⟩

/-- Hmac key state for the C6 counterexample: active key id '100'. -/
def c6st : HmacKeyState :=
  { previousKey := none
  , key := { id := jstr "100", data := jstr "secret64", created := 100
           , expires := some 430 } }

/-- Namespace record holding `c6st` with algorithm HS256. -/
def c6ns : Namespace :=
  { id := jstr "ns6", algorithm := jstr "HS256", clockToleranceInSecs := 30
  , tokenTtlInSecs := 300, state := NsState.hmac c6st }

/-- C6: counterexample. When the key id matches, the handler's call into
the token codec carries the matched key's decoded material and the
namespace's clock tolerance, but no `algorithms` restriction at all —
in particular not `[namespace.algorithm]` as the claim states. -/
theorem c6_codec_args_counterexample :
    NamespaceHandlerHmac.verifyCall c6ns (some (jstr "100")) =
      Except.ok { material := KeyMaterial.bytes (jstr "secret64")
                , algorithms := none, clockTolerance := 30 } ∧
    (none : Option (List (List Char))) ≠ some [c6ns.algorithm] :=
  ⟨rfl, by decide⟩

/-- C6 (amended): when HmacHandler.verify finds a key matching the keyId,
it invokes the token codec with the matching key's decoded material and
the namespace's clockToleranceInSecs as the acceptable clock skew — but it
passes no accepted-algorithms restriction (the `algorithms` option is
omitted), so the codec is not pinned to the namespace's configured
algorithm. -/
theorem c6_codec_args_amended (ns : Namespace) (st : HmacKeyState)
    (keyId : Option (List Char)) (key : HmacKey)
    (hst : ns.state = NsState.hmac st)
    (hsel : NamespaceHandlerHmac.selectKey st keyId = some key) :
    NamespaceHandlerHmac.verifyCall ns keyId =
      Except.ok { material := KeyMaterial.bytes key.data
                , algorithms := none
                , clockTolerance := ns.clockToleranceInSecs } :=
  verifyCall_of_selectKey ns st keyId key hst hsel

/-- C6 witness: the concrete codec call for the previous key after one
rotation — matched material is the previous key's data, `algorithms` is
omitted, clock tolerance is the namespace's 30. -/
theorem c6_codec_args_witness :
    NamespaceHandlerHmac.verifyCall
      { c6ns with state := NsState.hmac (rotateLocal c6st 500 (jstr "d6")) }
      (some (jstr "100")) =
      Except.ok { material := KeyMaterial.bytes (jstr "secret64")
                , algorithms := none, clockTolerance := 30 } :=
  c6_codec_args_amended
    { c6ns with state := NsState.hmac (rotateLocal c6st 500 (jstr "d6")) }
    (rotateLocal c6st 500 (jstr "d6")) (some (jstr "100")) c6st.key rfl
    (by decide)

/-- C7: Store.provision with an algorithm whose two-character family
prefix matches no registered handler fails with the
`BedrockError('Unsupported algorithm.', 'NotFound', ...)` — the spec's
UnsupportedAlgorithm case — and performs no record-store interaction:
the handler's createState is never run, no insert is attempted, and the
collection is unchanged. -/
theorem c7_unsupported_algorithm (db : List DBRecord) (opts : ProvisionOptions)
    (csr : Except ErrV NsState) (nowMs : Int)
    (h : handlerFor opts.algorithm = none) :
    Store.provision db opts csr nowMs =
      { errArg := some (ErrV.bedrock (jstr "Unsupported algorithm.")
          (jstr "NotFound"))
      , db := db, createStateCalled := false, insertAttempted := false } := by
  simp [Store.provision, h]

/-- Provision options with the unsupported algorithm 'XYZ256'. -/
def c7opts : ProvisionOptions :=
  { id := jstr "ns7", algorithm := jstr "XYZ256", clockToleranceInSecs := 30
  , tokenTtlInSecs := 300 }

/-- C7 witness: provisioning with algorithm 'XYZ256' fails with the
unsupported-algorithm error and leaves the empty collection untouched. -/
theorem c7_unsupported_algorithm_witness :
    Store.provision [] c7opts (Except.ok NsState.empty) 1000 =
      { errArg := some (ErrV.bedrock (jstr "Unsupported algorithm.")
          (jstr "NotFound"))
      , db := [], createStateCalled := false, insertAttempted := false } :=
  c7_unsupported_algorithm [] c7opts (Except.ok NsState.empty) 1000 (by decide)

/-- C8: provisioning is idempotent by namespace id — when a handler exists
for the requested algorithm and its createState succeeds, but the insert
collides with an already-stored record for the same id, the second
provision call reports no error and the collection (in particular the
record created by the first call) is left entirely unchanged; no
reconciliation against the newly requested options happens. -/
theorem c8_idempotent_provision (db : List DBRecord) (opts : ProvisionOptions)
    (st : NsState) (nowMs : Int) (k : HandlerKind)
    (hh : handlerFor opts.algorithm = some k)
    (hdup : db.any (fun r => r.id == databaseHash opts.id) = true) :
    Store.provision db opts (Except.ok st) nowMs =
      { errArg := none, db := db, createStateCalled := true
      , insertAttempted := true } := by
  simp [Store.provision, hh, dbInsert, hdup]

/-- Options of the first provision call in the C8 witness. -/
def c8optsA : ProvisionOptions :=
  { id := jstr "ns8", algorithm := jstr "HS256", clockToleranceInSecs := 30
  , tokenTtlInSecs := 300 }

/-- Options of the second provision call in the C8 witness: same id,
entirely different policy. -/
def c8optsB : ProvisionOptions :=
  { id := jstr "ns8", algorithm := jstr "HS384", clockToleranceInSecs := 99
  , tokenTtlInSecs := 1 }

/-- Handler state created by the first provision call in the C8 witness. -/
def c8stA : NsState :=
  NsState.hmac (NamespaceHandlerHmac.createState 300 30 100 (jstr "kdataA"))

/-- Handler state created by the second provision call in the C8 witness. -/
def c8stB : NsState :=
  NsState.hmac (NamespaceHandlerHmac.createState 1 99 200 (jstr "kdataB"))

/-- Collection after the first provision call in the C8 witness. -/
def c8db1 : List DBRecord :=
  (Store.provision [] c8optsA (Except.ok c8stA) 100000).db

/-- C8 witness: re-provisioning id 'ns8' with different options collides
with the record of the first call, reports no error, and leaves the
collection unchanged. -/
theorem c8_idempotent_provision_witness :
    Store.provision c8db1 c8optsB (Except.ok c8stB) 200000 =
      { errArg := none, db := c8db1, createStateCalled := true
      , insertAttempted := true } :=
  c8_idempotent_provision c8db1 c8optsB c8stB 200000 HandlerKind.hmac
    (by decide) (by decide)

/-- C9: for the external-key handler, getKey and createState fail with an
`InvalidKey` BedrockError exactly when the registry lookup errors or the
resolved key's status is not 'active'; when the lookup succeeds with an
active key, getKey returns the key reference as id together with the
resolved private key material; and the result is determined entirely by
the registry's answer at this very call (the reference is re-resolved
every time, nothing is cached). -/
theorem c9_webkey_revocation (registry : WebKeyRegistry) (keyRef : List Char) :
    isInvalidKeyFailure (NamespaceHandlerWebKey.getKey registry keyRef) =
      webKeyResolutionFails registry keyRef ∧
    isInvalidKeyFailure (NamespaceHandlerWebKey.createState registry keyRef) =
      webKeyResolutionFails registry keyRef ∧
    (∀ pk, registry keyRef = Except.ok pk → pk.sysStatus = jstr "active" →
      NamespaceHandlerWebKey.getKey registry keyRef =
        Except.ok { id := keyRef, material := KeyMaterial.pem pk.privateKeyPem }) ∧
    (∀ registry2 : WebKeyRegistry, registry2 keyRef = registry keyRef →
      NamespaceHandlerWebKey.getKey registry2 keyRef =
        NamespaceHandlerWebKey.getKey registry keyRef) := by
  refine ⟨?_, ?_, ?_, ?_⟩
  · cases hr : registry keyRef with
    | error e =>
      simp [NamespaceHandlerWebKey.getKey, hr, isInvalidKeyFailure,
        webKeyResolutionFails]
    | ok pk =>
      by_cases hs : (pk.sysStatus == jstr "active") = true
      · simp [NamespaceHandlerWebKey.getKey, hr, hs, isInvalidKeyFailure,
          webKeyResolutionFails]
      · simp only [Bool.not_eq_true] at hs
        simp [NamespaceHandlerWebKey.getKey, hr, hs, isInvalidKeyFailure,
          webKeyResolutionFails]
  · cases hr : registry keyRef with
    | error e =>
      simp [NamespaceHandlerWebKey.createState, NamespaceHandlerWebKey.getKey,
        hr, isInvalidKeyFailure, webKeyResolutionFails]
    | ok pk =>
      by_cases hs : (pk.sysStatus == jstr "active") = true
      · simp [NamespaceHandlerWebKey.createState, NamespaceHandlerWebKey.getKey,
          hr, hs, isInvalidKeyFailure, webKeyResolutionFails]
      · simp only [Bool.not_eq_true] at hs
        simp [NamespaceHandlerWebKey.createState, NamespaceHandlerWebKey.getKey,
          hr, hs, isInvalidKeyFailure, webKeyResolutionFails]
  · intro pk hr hs
    simp [NamespaceHandlerWebKey.getKey, hr, hs]
  · intro registry2 hr
    simp [NamespaceHandlerWebKey.getKey, hr]

/-- Registry for the C9 witness in which the referenced key is active. -/
def c9regActive : WebKeyRegistry := fun _ =>
  Except.ok { sysStatus := jstr "active", privateKeyPem := jstr "PEM1" }

/-- Registry for the C9 witness in which the referenced key has been
revoked. -/
def c9regRevoked : WebKeyRegistry := fun _ =>
  Except.ok { sysStatus := jstr "revoked", privateKeyPem := jstr "PEM1" }

/-- C9 witness: with the active registry the concrete reference resolves
to its PEM material; with the revoked registry both createState and
getKey fail with the InvalidKey error. -/
theorem c9_webkey_revocation_witness :
    NamespaceHandlerWebKey.getKey c9regActive (jstr "did:key:z1") =
      Except.ok { id := jstr "did:key:z1"
                , material := KeyMaterial.pem (jstr "PEM1") } ∧
    isInvalidKeyFailure
      (NamespaceHandlerWebKey.getKey c9regRevoked (jstr "did:key:z1")) = true ∧
    isInvalidKeyFailure
      (NamespaceHandlerWebKey.createState c9regRevoked (jstr "did:key:z1")) =
      true :=
  ⟨(c9_webkey_revocation c9regActive (jstr "did:key:z1")).2.2.1
      { sysStatus := jstr "active", privateKeyPem := jstr "PEM1" } rfl rfl,
   by rw [(c9_webkey_revocation c9regRevoked (jstr "did:key:z1")).1]; decide,
   by rw [(c9_webkey_revocation c9regRevoked (jstr "did:key:z1")).2.1]; decide⟩

/-- C10: sign never mutates the caller's payload object — the caller's
payload is returned exactly as passed (the `_.assign` adding `exp` and
`iat` targets the `bedrock.util.clone` copy), the token embeds that
mutated clone, and every property other than `exp` and `iat` carries over
from the original payload unchanged. -/
theorem c10_sign_no_payload_mutation (ns : Namespace) (key : ResolvedKey)
    (p : Payload) (nowInSecs : Int) :
    (NamespaceHandler.sign ns key p nowInSecs).2 = p ∧
    (NamespaceHandler.sign ns key p nowInSecs).1.payload =
      setField (setField (jsClone p) (jstr "exp")
          (JVal.num (nowInSecs + ns.tokenTtlInSecs)))
        (jstr "iat") (JVal.num nowInSecs) ∧
    (∀ k, k ≠ jstr "exp" → k ≠ jstr "iat" →
      lookupField (NamespaceHandler.sign ns key p nowInSecs).1.payload k =
        lookupField p k) := by
  refine ⟨rfl, rfl, ?_⟩
  intro k h1 h2
  show lookupField (setField (setField (jsClone p) (jstr "exp")
      (JVal.num (nowInSecs + ns.tokenTtlInSecs)))
    (jstr "iat") (JVal.num nowInSecs)) k = lookupField p k
  rw [lookupField_setField_ne _ _ _ _ (Ne.symm h2),
    lookupField_setField_ne _ _ _ _ (Ne.symm h1)]
  rfl

/-- Hmac key state for the C10 witness. -/
def c10st : HmacKeyState :=
  { previousKey := none
  , key := { id := jstr "9", data := jstr "kd10", created := 9
           , expires := some 339 } }

/-- Namespace record for the C10 witness. -/
def c10ns : Namespace :=
  { id := jstr "ns10", algorithm := jstr "HS256", clockToleranceInSecs := 30
  , tokenTtlInSecs := 300, state := NsState.hmac c10st }

/-- Resolved key for the C10 witness. -/
def c10key : ResolvedKey :=
  { id := jstr "9", material := KeyMaterial.bytes (jstr "kd10") }

/-- Payload for the C10 witness. -/
def c10p : Payload := [(jstr "sub", JVal.str (jstr "alice"))]

/-- C10 witness: signing the concrete payload returns the caller's
payload unchanged and preserves its 'sub' property in the token. -/
theorem c10_sign_no_payload_mutation_witness :
    (NamespaceHandler.sign c10ns c10key c10p 9).2 = c10p ∧
    lookupField (NamespaceHandler.sign c10ns c10key c10p 9).1.payload
      (jstr "sub") = lookupField c10p (jstr "sub") :=
  ⟨(c10_sign_no_payload_mutation c10ns c10key c10p 9).1,
   (c10_sign_no_payload_mutation c10ns c10key c10p 9).2.2 (jstr "sub")
     (by decide) (by decide)⟩
